import Mathlib

/-!
Verification of the whisper dictation recording pipeline.

This file is a shallow embedding of the state machine and pipeline in
`whisper_dictation.py` (the `whisper_menubar.py` variant agrees on every
modelled aspect).  Timestamps and audio samples are rationals; side
effects (stream open/close, temp-file lifecycle, clipboard operations,
paste keystrokes) are recorded as an explicit effect trace.
-/

namespace Whisper

/-- A transcription segment as returned by the engine; the pipeline
only reads the `text` field. -/
structure Segment where
  text : String
deriving DecidableEq, Repr

/-- Observable side effects of the pipeline, in the order the code
performs them. -/
inductive Effect where
  | openStream
  | closeStream
  | reportStartFailure
  | reportNoAudio
  | createTempFile
  | transcribeCall
  | clipboardRead (content : String)
  | clipboardWrite (content : String)
  | pasteKeystroke
  | scheduleRestore (content : String)
  | deleteTempFile
  | reportInsertFailure
deriving DecidableEq, Repr

/-- The mutable state of `WhisperDictationApp`: the `recording` flag,
the `audio_data` chunk list (each chunk a list of float samples) and
the `stream` handle. -/
structure AppState where
  recording : Bool
  audio_data : List (List ℚ)
  stream : Option Nat
deriving DecidableEq, Repr

/-- Outcome of `sd.InputStream(...)` followed by `.start()`:
the constructor may raise before the handle is assigned (`ctorFail`),
or `.start()` may raise after the handle was assigned (`startFail`). -/
inductive StreamOpenResult where
  | ok (handle : Nat)
  | ctorFail
  | startFail (handle : Nat)
deriving DecidableEq, Repr

/-- Whether the stream open/start raised. -/
def StreamOpenResult.isFail : StreamOpenResult → Bool
  | .ok _ => false
  | .ctorFail => true
  | .startFail _ => true

/-- Outcome of `self.model.transcribe(...)`: a segment list, or an
exception. -/
inductive TranscribeResult where
  | ok (segments : List Segment)
  | engineFail
deriving DecidableEq, Repr

/-- `start_recording`: returns early if already recording; otherwise
sets the flag, clears the buffer and opens the input stream.  On an
exception the flag is reset to `False` and the failure is printed. -/
def start_recording (s : AppState) (r : StreamOpenResult) :
    AppState × List Effect :=
  if s.recording then (s, [])
  else
    let s1 : AppState := { s with recording := true, audio_data := [] }
    match r with
    | .ok h => ({ s1 with stream := some h }, [.openStream])
    | .ctorFail => ({ s1 with recording := false }, [.reportStartFailure])
    | .startFail h =>
        ({ s1 with recording := false, stream := some h },
         [.reportStartFailure])

/-- Python whitespace as stripped by `str.strip()`. -/
def isPySpace (c : Char) : Bool :=
  c = ' ' || c = '\t' || c = '\n' || c = '\r' || c = '\x0b' || c = '\x0c'

/-- Python `str.strip()`: drop whitespace from both ends. -/
def pyStrip (s : String) : String :=
  (((s.data.dropWhile isPySpace).reverse.dropWhile isPySpace).reverse).asString

/-- The extraction loop `for segment in segments: text += segment.text`
starting from the empty string. -/
def extract_text (segments : List Segment) : String :=
  segments.foldl (fun acc seg => acc ++ seg.text) ""

/-- Effect trace of the failure-free run of `_insert_text text` when
the clipboard holds `c0`: back up the clipboard, write the text,
paste, and schedule the deferred restore of the backed-up content.
This is the injection trace embedded in `stop_recording`, which
models executions whose injection raises nothing; `_insert_text`
catches its own exceptions, so an injection failure never alters
`stop_recording`'s control flow, only this sub-trace (see
`_insert_text` below for the failing runs). -/
def insert_text_effects (c0 text : String) : List Effect :=
  [.clipboardRead c0, .clipboardWrite text, .pasteKeystroke,
   .scheduleRestore c0]

/-- Where `_insert_text` raises, if anywhere: reading the clipboard
backup (before anything is written), writing the text to the
clipboard, or building the keyboard controller / dispatching the
paste keystroke after the write succeeded.  The surrounding
`try/except` catches the exception and prints a failure message,
leaving whatever was already done in place. -/
inductive InsertOutcome where
  | ok
  | readFail
  | writeFail
  | pasteFail
deriving DecidableEq, Repr

/-- `_insert_text text` with the clipboard holding `c0`: back up the
clipboard, write the text, paste, and schedule the deferred restore
of the backup — unless a step raises, in which case the `except` arm
reports the failure and returns without scheduling any restore, so a
failure after the clipboard write leaves the injected text on the
clipboard (the code's deliberate manual-paste fallback). -/
def _insert_text (c0 text : String) (o : InsertOutcome) : List Effect :=
  match o with
  | .ok => [.clipboardRead c0, .clipboardWrite text, .pasteKeystroke,
            .scheduleRestore c0]
  | .readFail => [.reportInsertFailure]
  | .writeFail => [.clipboardRead c0, .reportInsertFailure]
  | .pasteFail => [.clipboardRead c0, .clipboardWrite text,
                   .reportInsertFailure]

/-- `stop_recording`: returns early if not recording; otherwise clears
the flag, stops and closes the stream if present, returns early if no
audio was buffered, and otherwise writes the WAV temp file, calls the
engine, injects the stripped nonempty text, and removes the temp file
in a `finally` block. -/
def stop_recording (s : AppState) (c0 : String) (t : TranscribeResult) :
    AppState × List Effect :=
  if !s.recording then (s, [])
  else
    let s1 : AppState := { s with recording := false }
    let closeFx : List Effect :=
      match s1.stream with
      | some _ => [.closeStream]
      | none => []
    let s2 : AppState :=
      match s1.stream with
      | some _ => { s1 with stream := none }
      | none => s1
    if s2.audio_data.isEmpty then
      (s2, closeFx ++ [.reportNoAudio])
    else
      match t with
      | .ok segments =>
          let text := extract_text segments
          if (pyStrip text).isEmpty then
            (s2, closeFx ++ [.createTempFile, .transcribeCall,
                             .deleteTempFile])
          else
            (s2, closeFx ++ [.createTempFile, .transcribeCall]
                  ++ insert_text_effects c0 (pyStrip text)
                  ++ [.deleteTempFile])
      | .engineFail =>
          (s2, closeFx ++ [.createTempFile, .transcribeCall,
                           .deleteTempFile])

/-- Clipboard contents after running an effect trace: a clipboard
write sets it, and the deferred restore (with no further clipboard
writes in between, as in the traces here) eventually writes the
retained content. -/
def run_clipboard : String → List Effect → String
  | c, [] => c
  | _, .clipboardWrite t :: rest => run_clipboard t rest
  | _, .scheduleRestore t :: rest => run_clipboard t rest
  | c, _ :: rest => run_clipboard c rest

/-- Double-tap threshold (`tap_threshold = 0.5`). -/
def tap_threshold : ℚ := 1/2

/-- Initial value of the `last_tap_time` cell. -/
def initial_last_tap : ℚ := 0

/-- Gesture events the listener can trigger. -/
inductive GestureEvent where
  | start
  | stop
deriving DecidableEq, Repr

/-- The `on_press` handler restricted to a qualifying key (right
Option): given the current recording flag, the stored `last_tap_time`
and the current time, it emits Start on a fast re-tap while idle,
Stop on any tap while recording, nothing otherwise, and always stores
the current time. -/
def on_press (recording : Bool) (last_tap_time now : ℚ) :
    Option GestureEvent × ℚ :=
  let time_since_last := now - last_tap_time
  let ev : Option GestureEvent :=
    if !recording ∧ time_since_last < tap_threshold then some .start
    else if recording then some .stop
    else none
  (ev, now)

/-- Capture sample rate (`self.sample_rate = 16000`). -/
def sample_rate : Nat := 16000

/-- Truncation toward zero, as performed by numpy `astype(np.int16)`
on a float value that fits in the target range. -/
def truncQ (q : ℚ) : ℤ :=
  if 0 ≤ q then ⌊q⌋ else ⌈q⌉

/-- One float sample converted to a 16-bit integer:
`(audio_data * 32767).astype(np.int16)`. -/
def float_to_int16 (x : ℚ) : ℤ :=
  truncQ (x * 32767)

/-- Little-endian two-byte encoding of a 16-bit integer, as in
`audio_int16.tobytes()`. -/
def int16ToBytes (i : ℤ) : List Nat :=
  let u : Nat := (i % 65536).toNat
  [u % 256, u / 256]

/-- Decode one little-endian two-byte pair as a signed 16-bit
integer. -/
def bytesToInt16 (b0 b1 : Nat) : ℤ :=
  let u := b0 + 256 * b1
  if u < 32768 then (u : ℤ) else (u : ℤ) - 65536

/-- The WAV container written by `_save_audio_to_file`: header
parameters plus the raw frame bytes. -/
structure WavFile where
  nchannels : Nat
  sampwidth : Nat
  framerate : Nat
  frames : List Nat
deriving DecidableEq, Repr

/-- `_save_audio_to_file`: scale each sample by 32767, truncate to
int16, serialize little-endian into a mono 16-bit WAV at the capture
sample rate. -/
def save_audio_to_file (audio_data : List ℚ) : WavFile :=
  { nchannels := 1, sampwidth := 2, framerate := sample_rate,
    frames := audio_data.flatMap (fun x => int16ToBytes (float_to_int16 x)) }

/-- Decode 16-bit PCM frame bytes back to normalized float samples. -/
def decode_frames : List Nat → List ℚ
  | b0 :: b1 :: rest => (bytesToInt16 b0 b1 : ℚ) / 32767 :: decode_frames rest
  | _ => []

/-- Decode a WAV file produced by `save_audio_to_file`. -/
def decode_wav (w : WavFile) : List ℚ :=
  decode_frames w.frames

/-! ## Gesture detector -/

/-- C1: for every qualifying key-down, the detector emits Start iff
the recording flag is off (Idle) and the elapsed time since the
stored previous tap is strictly below the 0.5 s threshold; it emits
Stop iff the recording flag is on, for any elapsed time; otherwise it
emits nothing; in particular it never emits Start while Recording. -/
theorem gesture_emit_characterization (recording : Bool)
    (last_tap_time now : ℚ) :
    ((on_press recording last_tap_time now).1 = some GestureEvent.start ↔
      recording = false ∧ now - last_tap_time < tap_threshold) ∧
    ((on_press recording last_tap_time now).1 = some GestureEvent.stop ↔
      recording = true) ∧
    ((on_press recording last_tap_time now).1 = none ↔
      recording = false ∧ ¬ now - last_tap_time < tap_threshold) ∧
    ¬(recording = true ∧
      (on_press recording last_tap_time now).1 = some GestureEvent.start) := by
  cases recording <;>
    by_cases h : now - last_tap_time < tap_threshold <;>
      simp [on_press, h]

/-- C9 counterexample: with the `last_tap_time` cell still holding its
initial value 0, a first qualifying tap arriving at time 1/4 (within
the threshold of the epoch) does emit Start, so the first tap is not
silent for every arrival time. -/
theorem first_tap_early_emits_start :
    (on_press false initial_last_tap (1/4)).1 = some GestureEvent.start := by
  norm_num [on_press, initial_last_tap, tap_threshold]

/-- C9 amended: the first qualifying tap emits nothing and merely
records its timestamp whenever it arrives at least the 0.5 s
threshold after the epoch used as the initial sentinel timestamp 0
(as every wall-clock timestamp in a real run does). -/
theorem first_tap_at_realistic_time_silent (now : ℚ)
    (h : tap_threshold ≤ now) :
    (on_press false initial_last_tap now).1 = none ∧
    (on_press false initial_last_tap now).2 = now := by
  refine ⟨?_, rfl⟩
  have hnot : ¬ now - initial_last_tap < tap_threshold := by
    simp only [initial_last_tap, sub_zero]
    exact not_lt.mpr h
  simp [on_press, hnot]

/-- Witness for the amended C9 at arrival time 3. -/
theorem first_tap_at_realistic_time_silent_witness :
    tap_threshold ≤ (3 : ℚ) ∧
      ((on_press false initial_last_tap 3).1 = none ∧
       (on_press false initial_last_tap 3).2 = 3) :=
  ⟨by norm_num [tap_threshold],
   first_tap_at_realistic_time_silent 3 (by norm_num [tap_threshold])⟩

/-- C10: the handler stores the tap timestamp in every branch, so a
tap that emits Stop counts as the previous qualifying event, and a
further tap within the threshold after a Stop tap (with the session
back to Idle) emits Start. -/
theorem tap_time_always_recorded :
    (∀ (recording : Bool) (last_tap_time now : ℚ),
        (on_press recording last_tap_time now).2 = now) ∧
    ∀ (last_tap_time t t' : ℚ), t' - t < tap_threshold →
      (on_press true last_tap_time t).1 = some GestureEvent.stop ∧
      (on_press false (on_press true last_tap_time t).2 t').1 =
        some GestureEvent.start := by
  refine ⟨fun recording l n => rfl, fun l t t' h => ⟨rfl, ?_⟩⟩
  simp [on_press, h]

/-- Witness for C10: a Stop tap at time 1 followed by a tap at 5/4
(gap 1/4 below the threshold) emits Start. -/
theorem tap_time_always_recorded_witness :
    (on_press true 0 1).1 = some GestureEvent.stop ∧
    (on_press false (on_press true 0 1).2 (5/4)).1 =
      some GestureEvent.start :=
  tap_time_always_recorded.2 0 1 (5/4) (by norm_num [tap_threshold])

/-! ## Recording session transitions -/

/-- C2: `start_recording` while already Recording and `stop_recording`
while already Idle return immediately with every piece of state
(recording flag, audio buffer, stream handle) unchanged and an empty
effect trace: no stream is opened or closed and no transcription or
injection is triggered. -/
theorem start_stop_idempotent :
    (∀ (s : AppState) (r : StreamOpenResult), s.recording = true →
        start_recording s r = (s, [])) ∧
    (∀ (s : AppState) (c0 : String) (t : TranscribeResult),
        s.recording = false → stop_recording s c0 t = (s, [])) := by
  constructor
  · intro s r h
    simp [start_recording, h]
  · intro s c0 t h
    simp [stop_recording, h]

/-- Witness for C2: a Start on a Recording state and a Stop on an Idle
state, both at concrete inputs. -/
theorem start_stop_idempotent_witness :
    ((⟨true, [[0]], some 0⟩ : AppState).recording = true ∧
      start_recording ⟨true, [[0]], some 0⟩ (StreamOpenResult.ok 1) =
        (⟨true, [[0]], some 0⟩, [])) ∧
    ((⟨false, [], none⟩ : AppState).recording = false ∧
      stop_recording ⟨false, [], none⟩ "clip" TranscribeResult.engineFail =
        (⟨false, [], none⟩, [])) :=
  ⟨⟨rfl, start_stop_idempotent.1 ⟨true, [[0]], some 0⟩
      (StreamOpenResult.ok 1) rfl⟩,
   ⟨rfl, start_stop_idempotent.2 ⟨false, [], none⟩ "clip"
      TranscribeResult.engineFail rfl⟩⟩

/-- C3: stopping while Recording with an empty audio buffer performs
no transcription call, creates no temp file and injects no text (no
clipboard write, no paste keystroke): the call is a valid no-op, not
an error. -/
theorem empty_buffer_no_transcription (s : AppState) (c0 : String)
    (t : TranscribeResult) (hrec : s.recording = true)
    (hbuf : s.audio_data = []) :
    Effect.transcribeCall ∉ (stop_recording s c0 t).2 ∧
    Effect.createTempFile ∉ (stop_recording s c0 t).2 ∧
    (∀ txt, Effect.clipboardWrite txt ∉ (stop_recording s c0 t).2) ∧
    Effect.pasteKeystroke ∉ (stop_recording s c0 t).2 := by
  rcases s with ⟨rec, ad, st⟩
  rcases st with _ | h <;> simp_all [stop_recording]

/-- Witness for C3: stopping a Recording state with empty buffer. -/
theorem empty_buffer_no_transcription_witness :
    ((⟨true, [], some 0⟩ : AppState).recording = true ∧
      (⟨true, [], some 0⟩ : AppState).audio_data = []) ∧
    (Effect.transcribeCall ∉
        (stop_recording ⟨true, [], some 0⟩ "c" TranscribeResult.engineFail).2 ∧
      Effect.createTempFile ∉
        (stop_recording ⟨true, [], some 0⟩ "c" TranscribeResult.engineFail).2 ∧
      (∀ txt, Effect.clipboardWrite txt ∉
        (stop_recording ⟨true, [], some 0⟩ "c" TranscribeResult.engineFail).2) ∧
      Effect.pasteKeystroke ∉
        (stop_recording ⟨true, [], some 0⟩ "c" TranscribeResult.engineFail).2) :=
  ⟨⟨rfl, rfl⟩,
   empty_buffer_no_transcription ⟨true, [], some 0⟩ "c"
     TranscribeResult.engineFail rfl rfl⟩

/-- C4 counterexample: the Idle-with-leftover-buffer state is
reachable (a completed stop transition never clears `audio_data`),
and from it a failed stream open does not leave all other state as it
was: the aborted Start transition has cleared the audio buffer. -/
theorem start_failure_clears_buffer :
    (stop_recording ⟨true, [[0]], some 0⟩ "c"
        (TranscribeResult.ok [])).1 = ⟨false, [[0]], none⟩ ∧
    (start_recording ⟨false, [[0]], none⟩
        StreamOpenResult.ctorFail).1.audio_data = [] ∧
    (⟨false, [[0]], none⟩ : AppState).audio_data ≠ [] := by
  exact ⟨rfl, rfl, by simp⟩

/-- C4 amended: if opening or starting the stream raises during a
Start transition from Idle, the transition is aborted with the
recording flag False and the failure reported exactly once with no
retry; however the audio buffer has been cleared to empty by the
attempted transition rather than restored, and when `.start()` raised
after construction the stream field holds the new handle (it is
unchanged only when the constructor itself raised). -/
theorem start_failure_aborts (s : AppState) (r : StreamOpenResult)
    (hidle : s.recording = false) (hfail : r.isFail = true) :
    (start_recording s r).1.recording = false ∧
    (start_recording s r).1.audio_data = [] ∧
    (start_recording s r).2 = [Effect.reportStartFailure] ∧
    (start_recording s r).1.stream =
      (match r with
       | .startFail h => some h
       | _ => s.stream) := by
  rcases r with h | _ | h
  · simp [StreamOpenResult.isFail] at hfail
  · simp [start_recording, hidle]
  · simp [start_recording, hidle]

/-- Witness for the amended C4: a constructor failure from Idle. -/
theorem start_failure_aborts_witness :
    ((⟨false, [[0]], none⟩ : AppState).recording = false ∧
      StreamOpenResult.ctorFail.isFail = true) ∧
    ((start_recording ⟨false, [[0]], none⟩
        StreamOpenResult.ctorFail).1.recording = false ∧
      (start_recording ⟨false, [[0]], none⟩
        StreamOpenResult.ctorFail).1.audio_data = [] ∧
      (start_recording ⟨false, [[0]], none⟩
        StreamOpenResult.ctorFail).2 = [Effect.reportStartFailure] ∧
      (start_recording ⟨false, [[0]], none⟩
        StreamOpenResult.ctorFail).1.stream =
        (match StreamOpenResult.ctorFail with
         | .startFail h => some h
         | _ => (⟨false, [[0]], none⟩ : AppState).stream)) :=
  ⟨⟨rfl, rfl⟩,
   start_failure_aborts ⟨false, [[0]], none⟩ StreamOpenResult.ctorFail
     rfl rfl⟩

/-- C6: on every path through `stop_recording` that creates the
temporary WAV file (Recording with a nonempty buffer), the file is
created exactly once and deleted exactly once, and the deletion is
the final action — in particular also when the engine call raises. -/
theorem temp_file_always_deleted (s : AppState) (c0 : String)
    (t : TranscribeResult) (hrec : s.recording = true)
    (hbuf : s.audio_data ≠ []) :
    (stop_recording s c0 t).2.count Effect.createTempFile = 1 ∧
    (stop_recording s c0 t).2.count Effect.deleteTempFile = 1 ∧
    (stop_recording s c0 t).2.getLast? = some Effect.deleteTempFile := by
  rcases s with ⟨rec, ad, st⟩
  rcases t with segments | _ <;>
    rcases st with _ | h <;>
      simp_all [stop_recording, insert_text_effects] <;>
        split <;>
          simp [List.count_cons, insert_text_effects]

/-- Witness for C6: a stop with a nonempty buffer whose engine call
raises still creates and deletes the temp file exactly once, deleting
last. -/
theorem temp_file_always_deleted_witness :
    ((⟨true, [[0]], some 0⟩ : AppState).recording = true ∧
      (⟨true, [[0]], some 0⟩ : AppState).audio_data ≠ []) ∧
    ((stop_recording ⟨true, [[0]], some 0⟩ "c"
        TranscribeResult.engineFail).2.count Effect.createTempFile = 1 ∧
      (stop_recording ⟨true, [[0]], some 0⟩ "c"
        TranscribeResult.engineFail).2.count Effect.deleteTempFile = 1 ∧
      (stop_recording ⟨true, [[0]], some 0⟩ "c"
        TranscribeResult.engineFail).2.getLast? =
          some Effect.deleteTempFile) :=
  ⟨⟨rfl, by simp⟩,
   temp_file_always_deleted ⟨true, [[0]], some 0⟩ "c"
     TranscribeResult.engineFail rfl (by simp)⟩

/-! ## Transcription text and injection -/

/-- C5: the text built from the engine result is exactly the
concatenation of the segment texts in emitted order with no separator
(`String.join` of the texts), and is empty for zero segments; in the
pipeline, segments "Hello " and "world" lead to exactly one injection
of exactly "Hello world", and zero segments produce no clipboard
write and no paste action. -/
theorem transcription_concat :
    (∀ segments : List Segment,
        extract_text segments = String.join (segments.map Segment.text)) ∧
    extract_text [] = "" ∧
    (∀ c0 : String,
        (stop_recording ⟨true, [[0]], some 0⟩ c0
            (TranscribeResult.ok [⟨"Hello "⟩, ⟨"world"⟩])).2 =
          [Effect.closeStream, Effect.createTempFile, Effect.transcribeCall,
           Effect.clipboardRead c0, Effect.clipboardWrite "Hello world",
           Effect.pasteKeystroke, Effect.scheduleRestore c0,
           Effect.deleteTempFile]) ∧
    (∀ c0 txt : String,
        Effect.clipboardWrite txt ∉
          (stop_recording ⟨true, [[0]], some 0⟩ c0
            (TranscribeResult.ok [])).2) ∧
    (∀ c0 : String,
        Effect.pasteKeystroke ∉
          (stop_recording ⟨true, [[0]], some 0⟩ c0
            (TranscribeResult.ok [])).2) := by
  refine ⟨fun segments => ?_, rfl, fun c0 => rfl, fun c0 txt => ?_, fun c0 => ?_⟩
  · simp [extract_text, String.join, List.foldl_map]
  · show Effect.clipboardWrite txt ∉
      [Effect.closeStream, Effect.createTempFile, Effect.transcribeCall,
       Effect.deleteTempFile]
    simp
  · show Effect.pasteKeystroke ∉
      [Effect.closeStream, Effect.createTempFile, Effect.transcribeCall,
       Effect.deleteTempFile]
    simp

/-- C7 counterexample: when the paste dispatch raises after the
clipboard write succeeded (the injection-error degradation the code
catches in its `except` arm), no restore is scheduled, and — with no
further clipboard writes and no process exit — the clipboard ends
holding the injected text, not its pre-injection value. -/
theorem clipboard_not_restored_on_paste_failure :
    _insert_text "before" "Hello" InsertOutcome.pasteFail =
      [Effect.clipboardRead "before", Effect.clipboardWrite "Hello",
       Effect.reportInsertFailure] ∧
    run_clipboard "before"
        (_insert_text "before" "Hello" InsertOutcome.pasteFail) = "Hello" ∧
    Effect.scheduleRestore "before" ∉
      _insert_text "before" "Hello" InsertOutcome.pasteFail := by
  refine ⟨rfl, rfl, ?_⟩
  simp [_insert_text]

/-- C7 amended: the injector reads and retains the clipboard before
writing and, when the clipboard write and the paste dispatch both
succeed, schedules the deferred restore with the retained value, so
after the delay the clipboard is restored to exactly its
pre-injection value given no further clipboard writes in between —
and this holds across every `stop_recording` trace, which models
injection-success executions; but when a step raises after the
clipboard write, no restore is scheduled and the injected text is
deliberately left on the clipboard for manual paste. -/
theorem clipboard_restore_characterization :
    (∀ c0 text : String,
        _insert_text c0 text InsertOutcome.ok = insert_text_effects c0 text ∧
        (_insert_text c0 text InsertOutcome.ok).head? =
          some (Effect.clipboardRead c0) ∧
        run_clipboard c0 (_insert_text c0 text InsertOutcome.ok) = c0) ∧
    (∀ (s : AppState) (c0 : String) (t : TranscribeResult),
        run_clipboard c0 (stop_recording s c0 t).2 = c0) ∧
    (∀ c0 text : String,
        run_clipboard c0 (_insert_text c0 text InsertOutcome.pasteFail) =
          text ∧
        ∀ c, Effect.scheduleRestore c ∉
          _insert_text c0 text InsertOutcome.pasteFail) := by
  refine ⟨fun c0 text => ⟨rfl, rfl, rfl⟩, fun s c0 t => ?_,
    fun c0 text => ⟨rfl, fun c => ?_⟩⟩
  · rcases s with ⟨rec, ad, st⟩
    rcases rec with _ | _
    · rfl
    · rcases t with segments | _ <;> rcases st with _ | h <;>
        rcases ad with _ | ⟨chunk, rest⟩ <;>
        first
          | rfl
          | (simp only [stop_recording]
             split <;> rfl)
          | (simp [stop_recording]
             split <;> rfl)
  · simp [_insert_text]

/-! ## WAV round trip -/

/-- Little-endian byte serialization is inverted by the decoder on
the 16-bit range. -/
theorem bytesToInt16_int16ToBytes (i : ℤ) (h1 : -32768 ≤ i)
    (h2 : i ≤ 32767) :
    bytesToInt16 ((i % 65536).toNat % 256) ((i % 65536).toNat / 256) = i := by
  simp only [bytesToInt16]
  split <;> omega

/-- A sample in the float range scales to a value in the 16-bit
range. -/
theorem float_to_int16_range (x : ℚ) (h1 : -1 ≤ x) (h2 : x ≤ 1) :
    -32768 ≤ float_to_int16 x ∧ float_to_int16 x ≤ 32767 := by
  have hq1 : (-32767 : ℚ) ≤ x * 32767 := by nlinarith
  have hq2 : x * 32767 ≤ 32767 := by nlinarith
  unfold float_to_int16 truncQ
  split
  · refine ⟨Int.le_floor.mpr (by push_cast; linarith), ?_⟩
    have h := (Int.floor_le (x * 32767)).trans hq2
    exact_mod_cast h
  · refine ⟨?_, Int.ceil_le.mpr (by push_cast; linarith)⟩
    have h := hq1.trans (Int.le_ceil (x * 32767))
    have h32 : (-32768 : ℤ) ≤ -32767 := by norm_num
    exact h32.trans (by exact_mod_cast h)

/-- Truncation toward zero moves a rational by less than one. -/
theorem truncQ_err (q : ℚ) : |(truncQ q : ℚ) - q| ≤ 1 := by
  unfold truncQ
  rcases le_or_lt 0 q with h | h
  · rw [if_pos h, abs_le]
    have h1 := Int.floor_le q
    have h2 := Int.lt_floor_add_one q
    constructor <;> linarith
  · rw [if_neg (not_le.mpr h), abs_le]
    have h1 := Int.le_ceil q
    have h2 := Int.ceil_lt_add_one q
    constructor <;> linarith

/-- One sample survives the scale-truncate-rescale round trip within
one 16-bit quantization step. -/
theorem sample_quantization (x : ℚ) :
    |((float_to_int16 x : ℚ)) / 32767 - x| ≤ 1 / 32767 := by
  have h := truncQ_err (x * 32767)
  rw [abs_le] at h ⊢
  unfold float_to_int16
  constructor <;> linarith [h.1, h.2]

/-- Decoding the encoded frame bytes yields the rescaled truncated
samples, one per input sample. -/
theorem decode_frames_encode (samples : List ℚ)
    (h : ∀ x ∈ samples, -1 ≤ x ∧ x ≤ 1) :
    decode_frames (samples.flatMap fun x => int16ToBytes (float_to_int16 x)) =
      samples.map (fun x => ((float_to_int16 x : ℚ)) / 32767) := by
  induction samples with
  | nil => rfl
  | cons x xs ih =>
      have hx := h x (List.mem_cons_self x xs)
      have hr := float_to_int16_range x hx.1 hx.2
      have hb := bytesToInt16_int16ToBytes (float_to_int16 x) hr.1 hr.2
      have hstep :
          (x :: xs).flatMap (fun y => int16ToBytes (float_to_int16 y)) =
            ((float_to_int16 x % 65536).toNat % 256) ::
              ((float_to_int16 x % 65536).toNat / 256) ::
                xs.flatMap (fun y => int16ToBytes (float_to_int16 y)) := rfl
      rw [hstep]
      simp only [decode_frames, List.map_cons]
      rw [hb, ih (fun y hy => h y (List.mem_cons_of_mem x hy))]

/-- Same-index pairs of a list zipped with itself are equal. -/
theorem mem_zip_self {α : Type} {l : List α} :
    ∀ {p : α × α}, p ∈ l.zip l → p.1 = p.2 := by
  induction l with
  | nil =>
      intro p hp
      simp at hp
  | cons x xs ih =>
      intro p hp
      rw [List.zip_cons_cons] at hp
      rcases List.mem_cons.mp hp with h | h
      · rw [h]
      · exact ih h

/-- C8: encoding a float sample list in the range [-1, 1] to 16-bit
PCM WAV by scaling by 32767 and truncating, then decoding, yields a
list of the same length whose samples each differ from the originals
by at most one 16-bit quantization step (1/32767). -/
theorem wav_roundtrip (samples : List ℚ)
    (h : ∀ x ∈ samples, -1 ≤ x ∧ x ≤ 1) :
    (decode_wav (save_audio_to_file samples)).length = samples.length ∧
    ∀ p ∈ (decode_wav (save_audio_to_file samples)).zip samples,
      |p.1 - p.2| ≤ 1 / 32767 := by
  have hd : decode_wav (save_audio_to_file samples) =
      samples.map (fun x => ((float_to_int16 x : ℚ)) / 32767) :=
    decode_frames_encode samples h
  rw [hd]
  refine ⟨List.length_map _ _, fun p hp => ?_⟩
  rw [List.zip_map_left] at hp
  obtain ⟨q, hq, rfl⟩ := List.mem_map.mp hp
  have hqq : q.1 = q.2 := mem_zip_self hq
  simpa [Prod.map, hqq] using sample_quantization q.2

/-- Witness for C8 at a concrete sample list. -/
theorem wav_roundtrip_witness :
    (∀ x ∈ [(0 : ℚ), 1, -1, 3/10, -3/10], -1 ≤ x ∧ x ≤ 1) ∧
    ((decode_wav (save_audio_to_file [(0 : ℚ), 1, -1, 3/10, -3/10])).length =
        ([(0 : ℚ), 1, -1, 3/10, -3/10]).length ∧
      ∀ p ∈ (decode_wav (save_audio_to_file
            [(0 : ℚ), 1, -1, 3/10, -3/10])).zip
          [(0 : ℚ), 1, -1, 3/10, -3/10],
        |p.1 - p.2| ≤ 1 / 32767) :=
  ⟨by norm_num, wav_roundtrip [(0 : ℚ), 1, -1, 3/10, -3/10] (by norm_num)⟩

end Whisper
